import Mathlib

/-!
Shallow embedding of the wyckoff_multi_agent_analysis repository.

The embedding translates, from the Python sources:
- `retry` (src/data_fetcher/base.py, src/data_fetcher/data_fetcher.py): the
  bounded-attempt wrapper around a fallible operation;
- `CacheManager.load_cache` (same files): TTL-bounded cache reads;
- `StockDataFetcher.get_stock_data` (src/data_fetcher/data_fetcher.py): the
  in-memory class-level cache in front of the external fetch;
- `process_response` and `askDeepSeek` (src/ai_analyzer/ai_analyzer.py): the
  stream assembler and the engine-call retry loop;
- `PhaseHunterAgent.analyze` / `VolumeDetectiveAgent.analyze` and their
  module-level runners (src/agent/phase_hunter.py, src/agent/volume_detective.py);
- `run_wyckoff_multi_agent_analysis` (src/wyckoff_multi_agent_analysis.py):
  the orchestrator's fan-out over the five roles and the fan-in to the
  chief-strategist aggregator.

Python exceptions are modelled explicitly: a collaborator that may raise is a
value of `OpResult`/`AttemptOutcome` with an explicit exception constructor,
and a `try/except` in the source becomes a `match` on that constructor.  A
Lean function that is total therefore models Python code that cannot let an
exception escape.  Time is a natural number of seconds; datasets are opaque
`DF` values of which the code only observes emptiness and identity.
-/

namespace WMA

/-- A dataset (pandas DataFrame) as the code observes it: an opaque list of
rows.  The sources only test `df is None`, `df.empty`, and pass the frame
through unchanged, so rows are left abstract as integers. -/
structure DF where
  rows : List Int
  deriving DecidableEq, Repr

/-- Python `df.empty`: no rows. -/
def DF.isEmpty (df : DF) : Bool := df.rows.isEmpty

/-- Outcome of invoking a fallible Python operation: it returns a value or
raises an exception carrying a message. -/
inductive OpResult (α : Type) where
  | ok (val : α)
  | exn (msg : String)
  deriving DecidableEq, Repr

/-- Holds exactly on the non-raising outcome. -/
def OpResult.isOk {α : Type} : OpResult α → Bool
  | .ok _ => true
  | .exn _ => false

/-- The returned value, when the operation did not raise. -/
def OpResult.toOption {α : Type} : OpResult α → Option α
  | .ok v => some v
  | .exn _ => none

/-- What a run of the `retry` wrapper did: the value it returned to the
caller (`none` models Python `None`, the failure sentinel), how many times it
invoked the wrapped operation, and how many times it slept between
attempts. -/
structure RetryTrace (α : Type) where
  result : Option α
  calls : Nat
  sleeps : Nat
  deriving DecidableEq, Repr

/-- Embeds the loop body of the `retry` decorator
(src/data_fetcher/base.py lines 76-91): starting at attempt index `i` with
`rem` loop iterations left, try the operation; on success return its value
immediately; on an exception, sleep and move to the next attempt unless this
was the last iteration, in which case return the sentinel `none`.  The
operation is a function of the attempt index so that distinct attempts may
have distinct outcomes. -/
def retryAux {α : Type} (op : Nat → OpResult α) (i : Nat) : Nat → RetryTrace α
  | 0 => ⟨none, 0, 0⟩
  | rem + 1 =>
    match op i with
    | .ok v => ⟨some v, 1, 0⟩
    | .exn _ =>
      if rem = 0 then ⟨none, 1, 0⟩
      else
        let t := retryAux op (i + 1) rem
        ⟨t.result, t.calls + 1, t.sleeps + 1⟩

/-- The `retry(max_retries, retry_delay)` decorator applied to `op`
(src/data_fetcher/base.py lines 68-91): `for attempt in range(max_retries)`
starting at attempt 0.  The delay value itself does not influence control
flow and is not modelled; the number of sleeps is. -/
def retry {α : Type} (op : Nat → OpResult α) (max_retries : Nat) : RetryTrace α :=
  retryAux op 0 max_retries

/-! ## CacheStore (`CacheManager`, src/data_fetcher/base.py lines 29-66) -/

/-- The pickled payload of a cache file: either a dataset that deserializes,
or bytes on which `pickle.load` raises. -/
inductive Payload where
  | good (df : DF)
  | corrupt
  deriving DecidableEq, Repr

/-- One cache file: its `st_mtime` (seconds) and its payload. -/
structure CEntry where
  mtime : Nat
  payload : Payload
  deriving DecidableEq, Repr

/-- The cache directory: an association of file paths to entries. -/
def CacheFS : Type := List (String × CEntry)

/-- Association-list lookup by string key (first match wins, as a filesystem
has at most one file per path and a Python dict one value per key). -/
def alistLookup {β : Type} : List (String × β) → String → Option β
  | [], _ => none
  | (k, v) :: rest, key => if k = key then some v else alistLookup rest key

/-- Removes every binding of `key` (the `cache_path.unlink()` call). -/
def alistRemove {β : Type} : List (String × β) → String → List (String × β)
  | [], _ => []
  | (k, v) :: rest, key =>
    if k = key then alistRemove rest key else (k, v) :: alistRemove rest key

/-- Embeds `CacheManager.get_cache_path` (src/data_fetcher/base.py lines 32-35):
`CACHE_DIR / f"{data_type}_{symbol}.pkl"`. -/
def get_cache_path (symbol data_type : String) : String :=
  data_type ++ "_" ++ symbol ++ ".pkl"

/-- Embeds `CacheManager.load_cache` (src/data_fetcher/base.py lines 37-55).
Returns the loaded dataset (or `none`, the MISS sentinel) together with the
cache directory after the read.  `now` is `datetime.now().timestamp()`;
an entry is purged when its age strictly exceeds `expiry_hours * 3600`.
A payload on which deserialization raises is caught and mapped to `none`
(the function is total: no branch propagates an exception). -/
def load_cache (fs : CacheFS) (symbol data_type : String) (expiry_hours : Nat)
    (now : Nat) : Option DF × CacheFS :=
  let cache_path := get_cache_path symbol data_type
  match alistLookup fs cache_path with
  | none => (none, fs)
  | some e =>
    if now - e.mtime > expiry_hours * 3600 then
      (none, alistRemove fs cache_path)
    else
      match e.payload with
      | .good df => (some df, fs)
      | .corrupt => (none, fs)

/-! ## StreamAssembler (`process_response`, src/ai_analyzer/ai_analyzer.py
lines 18-57) -/

/-- A chunk's `delta`: optional reasoning fragment and content fragment. -/
structure Delta where
  reasoning_content : Option String
  content : Option String
  deriving DecidableEq, Repr

/-- One choice of a stream chunk. -/
structure Choice where
  delta : Option Delta
  finish_reason : Option String
  deriving DecidableEq, Repr

/-- One chunk of the response stream. -/
structure Chunk where
  choices : List Choice
  deriving DecidableEq, Repr

/-- The `for chunk in response` loop of `process_response`, carrying the two
accumulation buffers.  A chunk with no choices, or whose first choice has no
delta, is skipped; a first choice whose `finish_reason` equals `"stop"` ends
the loop and the call returns the content buffer; otherwise the reasoning and
content fragments (when present) are appended to their buffers.  A stream
that ends without a finish signal yields `none`. -/
def processLoop : List Chunk → String → String → Option String
  | [], _content, _reasoning => none
  | ch :: rest, content, reasoning =>
    match ch.choices with
    | [] => processLoop rest content reasoning
    | first_choice :: _ =>
      match first_choice.delta with
      | none => processLoop rest content reasoning
      | some d =>
        if first_choice.finish_reason = some "stop" then
          some content
        else
          processLoop rest
            (match d.content with
             | some c => content ++ c
             | none => content)
            (match d.reasoning_content with
             | some r => reasoning ++ r
             | none => reasoning)

/-- Embeds `process_response` (src/ai_analyzer/ai_analyzer.py lines 18-57): both
buffers start empty; only the content buffer is ever returned. -/
def process_response (response : List Chunk) : Option String :=
  processLoop response "" ""

/-! ## Engine call (`askDeepSeek`, src/ai_analyzer/ai_analyzer.py lines
59-129) -/

/-- Outcome of one engine attempt (client construction plus
`client.chat.completions.create`): either the transport raises, or it yields
a stream of chunks. -/
inductive AttemptOutcome where
  | raiseErr (msg : String)
  | stream (chunks : List Chunk)

/-- What a run of `askDeepSeek` did: the string it returned and the number of
attempts it made against the engine. -/
structure EngineTrace where
  result : String
  calls : Nat
  deriving DecidableEq, Repr

/-- The string `askDeepSeek` returns after exhausting its attempts
(src/ai_analyzer/ai_analyzer.py line 129). -/
def exhaustedMsg : String := "请求未正常结束,请稍后再试。"

/-- The string `askDeepSeek` returns when the stock frame is absent or empty
(src/ai_analyzer/ai_analyzer.py line 75). -/
def noDataMsg : String := "无有效股票历史数据，无法进行分析"

/-- The `for attempt in range(max_retries)` loop of `askDeepSeek`
(src/ai_analyzer/ai_analyzer.py lines 97-129), starting at attempt `i` with
`rem` iterations left.  An exception from the attempt is caught (with a sleep
before the next attempt, which does not change the returned value and is not
tracked here) and the loop continues; a stream is assembled with
`process_response`, whose result is returned only when it is truthy
(`if content:`): both `None` and the empty string fall through to the next
attempt.  When the loop exhausts, the fixed error string is returned — no
branch propagates an exception. -/
def askLoop (attempts : Nat → AttemptOutcome) (i : Nat) : Nat → EngineTrace
  | 0 => ⟨exhaustedMsg, 0⟩
  | rem + 1 =>
    match attempts i with
    | .raiseErr _ =>
      let t := askLoop attempts (i + 1) rem
      ⟨t.result, t.calls + 1⟩
    | .stream cs =>
      match process_response cs with
      | some content =>
        if content = "" then
          let t := askLoop attempts (i + 1) rem
          ⟨t.result, t.calls + 1⟩
        else ⟨content, 1⟩
      | none =>
        let t := askLoop attempts (i + 1) rem
        ⟨t.result, t.calls + 1⟩

/-- Embeds `askDeepSeek` (src/ai_analyzer/ai_analyzer.py lines 59-129).  The stock
frame gates an early return; the fund-flow frame and prompt only shape the
request payload, which is part of the opaque per-attempt outcome, so they are
not separate parameters.  The call sites pass `max_retries = 5` (the Python
default). -/
def askDeepSeek (stock_df : Option DF) (attempts : Nat → AttemptOutcome)
    (max_retries : Nat) : EngineTrace :=
  match stock_df with
  | none => ⟨noDataMsg, 0⟩
  | some df =>
    if df.isEmpty then ⟨noDataMsg, 0⟩
    else askLoop attempts 0 max_retries

/-! ## Agent records -/

/-- A JSON-like Python value, as the agents and orchestrator pass records
around: the engine reply is a plain string, fallback records are dicts. -/
inductive JVal where
  | s (v : String)
  | n (v : Int)
  | b (v : Bool)
  | arr (vs : List JVal)
  | obj (fields : List (String × JVal))

/-- The field-name list of a dict record; `none` for any non-dict value. -/
def fieldNames : JVal → Option (List String)
  | .obj fs => some (fs.map Prod.fst)
  | _ => none

/-- Field access on a dict record. -/
def getField (v : JVal) (key : String) : Option JVal :=
  match v with
  | .obj fs => alistLookup fs key
  | _ => none

/-! ## Phase hunter (src/agent/phase_hunter.py) -/

/-- The dict literal shared (up to the reason and debug lines) by the three
fallback sites of the phase hunter (src/agent/phase_hunter.py lines 105-115,
126-136, 518-528). -/
def phaseHunterFields (reason : String) (dbg : List String) : List (String × JVal) :=
  [("角色", .s "阶段猎手"), ("信号", .s "中性"), ("阶段评分", .n 3),
   ("关键结构", .arr []), ("大盘影响", .b false), ("止损位", .s "¥0.00"),
   ("置信度", .n 50), ("理由", .s reason),
   ("_debug_reasoning", .arr (dbg.map JVal.s))]

/-- The fallback record built when the `askDeepSeek` call raises
(src/agent/phase_hunter.py lines 102-115).  `msg` is `str(ai_error)` and
`ty` is `type(ai_error).__name__`. -/
def phaseHunterAIFallback (msg ty : String) : JVal :=
  .obj (phaseHunterFields ("AI分析调用失败: " ++ msg)
    ["错误详情: " ++ msg, "错误类型: " ++ ty])

/-- The fallback record built by the outer exception handler of
`PhaseHunterAgent.analyze` (src/agent/phase_hunter.py lines 123-136). -/
def phaseHunterErrFallback (msg ty : String) : JVal :=
  .obj (phaseHunterFields ("执行分析时发生错误: " ++ msg)
    ["错误详情: " ++ msg, "错误类型: " ++ ty])

/-- The fallback record built by the exception handler of
`run_phase_hunter_agent` (src/agent/phase_hunter.py lines 515-528); dead code
in this model because `analyze` is total. -/
def phaseHunterRunnerFallback (msg ty : String) : JVal :=
  .obj (phaseHunterFields ("运行agent时发生错误: " ++ msg)
    ["错误详情: " ++ msg, "错误类型: " ++ ty])

/-- The external world one role run observes: the primary dataset, the
auxiliary datasets (`none` models a fetch that returned `None`/empty; they
only shrink the composed prompt and never change control flow), and the
outcome of each engine attempt. -/
structure RoleEnv where
  stock_data : Option DF
  fund_flow : Option DF
  stock_info : Option (List (String × String))
  benchmark : Option DF
  industry : Option DF
  intraday : Option DF
  attempts : Nat → AttemptOutcome

/-- Embeds `PhaseHunterAgent.analyze` (src/agent/phase_hunter.py lines 70-136).
An absent or empty primary dataset raises `ValueError("无法获取股票数据")`,
caught by the method's outer handler, which yields the fixed fallback record.
Otherwise the auxiliary data and the prompt are composed (failures there are
degraded to defaults inside their own handlers and never escape) and
`askDeepSeek` is called with the Python-default `max_retries = 5`; since
`askDeepSeek` catches every exception internally and returns a string, the
`except` around the call (lines 102-115) is unreachable and the reply string
is returned verbatim as the record. -/
def phaseHunterAnalyze (env : RoleEnv) : JVal :=
  match env.stock_data with
  | none => phaseHunterErrFallback "无法获取股票数据" "ValueError"
  | some df =>
    if df.isEmpty then phaseHunterErrFallback "无法获取股票数据" "ValueError"
    else JVal.s (askDeepSeek (some df) env.attempts 5).result

/-- Embeds `run_phase_hunter_agent` (src/agent/phase_hunter.py lines 502-528): the
constructor only sets a name and `analyze` is total, so the wrapper's
exception handler is unreachable. -/
def run_phase_hunter_agent (env : RoleEnv) : JVal :=
  phaseHunterAnalyze env

/-! ## Volume detective (src/agent/volume_detective.py) -/

/-- The dict literal shared by the two fallback sites of
`VolumeDetectiveAgent.analyze` (src/agent/volume_detective.py lines 74-84 and
94-104). -/
def volumeDetectiveFields (reason : String) (dbg : List String) : List (String × JVal) :=
  [("角色", .s "量能侦探"), ("信号", .s "中性"), ("努力结果比率", .s "0.00"),
   ("异常行为", .arr []), ("机构验证", .s "无数据"), ("风险警告", .b false),
   ("置信度", .n 50), ("理由", .s reason),
   ("_debug_reasoning", .arr (dbg.map JVal.s))]

/-- The fallback record built when the `askDeepSeek` call raises
(src/agent/volume_detective.py lines 71-84). -/
def volumeDetectiveAIFallback (msg ty : String) : JVal :=
  .obj (volumeDetectiveFields ("AI分析调用失败: " ++ msg)
    ["错误详情: " ++ msg, "错误类型: " ++ ty])

/-- The fallback record built by the outer exception handler of
`VolumeDetectiveAgent.analyze` (src/agent/volume_detective.py lines 91-104). -/
def volumeDetectiveErrFallback (msg ty : String) : JVal :=
  .obj (volumeDetectiveFields ("执行分析时发生错误: " ++ msg)
    ["错误详情: " ++ msg, "错误类型: " ++ ty])

/-- The record built by the exception handler of
`run_volume_detective_agent` (src/agent/volume_detective.py lines 476-493):
`{"error": str(e)}`.  Dead code in this model because the constructor only
sets a name and `analyze` is total; kept because its field set differs from
the in-method fallbacks. -/
def volumeDetectiveOuterFallback (msg : String) : JVal :=
  .obj [("error", .s msg)]

/-- Embeds `VolumeDetectiveAgent.analyze` (src/agent/volume_detective.py lines
26-104): same control flow as the phase hunter — absent/empty primary data
raises and is caught by the outer handler; auxiliary data (fund flow, info,
benchmark, industry, intraday) only shape the prompt; the engine reply is
returned verbatim. -/
def volumeDetectiveAnalyze (env : RoleEnv) : JVal :=
  match env.stock_data with
  | none => volumeDetectiveErrFallback "无法获取股票数据" "ValueError"
  | some df =>
    if df.isEmpty then volumeDetectiveErrFallback "无法获取股票数据" "ValueError"
    else JVal.s (askDeepSeek (some df) env.attempts 5).result

/-- Embeds `run_volume_detective_agent` (src/agent/volume_detective.py lines
476-493); the outer handler is unreachable in this model. -/
def run_volume_detective_agent (env : RoleEnv) : JVal :=
  volumeDetectiveAnalyze env

/-! ## In-memory stock-data cache (`StockDataFetcher.get_stock_data`,
src/data_fetcher/data_fetcher.py lines 146-189) -/

/-- What one call of `get_stock_data` did: the value returned to the caller,
the class-level `_cache` dict afterwards, and how many times the external
`ak.stock_zh_a_hist` fetch was invoked. -/
structure FetchTrace where
  result : Option DF
  cache : List (String × DF)
  fetch_calls : Nat

/-- The body of `StockDataFetcher.get_stock_data` (src/data_fetcher/
data_fetcher.py lines 153-189): a hit in the class-level `_cache` dict is
returned at once, with no age or TTL check and without touching the external
fetch; on a miss the external fetch is invoked once — its frame is stored in
`_cache` and returned, and an exception from it is caught by the body's own
handler, which returns `None`.  `fetch` is the outcome of that single
external invocation. -/
def get_stock_data_body (fetch : OpResult DF) (cache : List (String × DF))
    (symbol : String) : FetchTrace :=
  match alistLookup cache symbol with
  | some df => ⟨some df, cache, 0⟩
  | none =>
    match fetch with
    | .ok df => ⟨some df, (symbol, df) :: cache, 1⟩
    | .exn _ => ⟨none, cache, 1⟩

/-- Embeds `get_stock_data` as exported: the body under its `@retry(max_retries=3,
retry_delay=1)` decorator.  Because the body catches its own exception and
returns `None` instead of raising, the wrapper sees a normal return on the
first attempt and never retries; the unreachable sentinel branch of the
wrapper is mapped to an empty trace. -/
def get_stock_data (fetch : OpResult DF) (cache : List (String × DF))
    (symbol : String) : FetchTrace :=
  match (retry (fun _ => OpResult.ok (get_stock_data_body fetch cache symbol)) 3).result with
  | some t => t
  | none => ⟨none, cache, 0⟩

/-! ## Orchestrator (src/wyckoff_multi_agent_analysis.py lines 26-135) -/

/-- The outcome of each of the five role runners for one subject, in the
declared order of the script: a runner either returns a record or raises. -/
structure RunOutcomes where
  phase : OpResult JVal
  volume : OpResult JVal
  spring : OpResult JVal
  target : OpResult JVal
  strength : OpResult JVal

/-- The records a runner outcome contributes to `expert_reports`: the
record on a normal return, nothing when the runner raised (the orchestrator's
`except` branch only prints — it appends no record). -/
def okToList {α : Type} : OpResult α → List α
  | .ok v => [v]
  | .exn _ => []

/-- The `expert_reports` list as built by `run_wyckoff_multi_agent_analysis`
(src/wyckoff_multi_agent_analysis.py lines 42-102): each role is run inside
its own `try`, and `expert_reports.append` is only reached when the runner
returns normally. -/
def expert_reports (o : RunOutcomes) : List JVal :=
  okToList o.phase ++ okToList o.volume ++ okToList o.spring ++
    okToList o.target ++ okToList o.strength

/-- The final dict of `run_wyckoff_multi_agent_analysis` (lines 117-122):
subject code, the per-role reports — the very list that was passed to the
chief strategist — and the consensus. -/
structure FinalResult where
  stock_code : String
  reports : List JVal
  consensus : JVal

/-- Embeds `run_wyckoff_multi_agent_analysis` (src/wyckoff_multi_agent_analysis.py
lines 26-135).  The five runners execute in the declared order; then the
chief-strategist aggregator is invoked with `expert_reports` (line 107) — an
exception there is caught and the consensus replaced by the empty dict
(line 113).  Result persistence only logs on failure and does not affect the
returned value, so it is not modelled. -/
def run_wyckoff_multi_agent_analysis (stock_code : String) (o : RunOutcomes)
    (aggregate : List JVal → OpResult JVal) : FinalResult :=
  let reports := expert_reports o
  let consensus :=
    match aggregate reports with
    | .ok v => v
    | .exn _ => JVal.obj []
  ⟨stock_code, reports, consensus⟩

/-! ## Shared concrete inputs and helper lemmas -/

/-- A small nonempty dataset used as a concrete payload. -/
def sampleDF : DF := ⟨[1, 2, 3]⟩

/-- A chunk whose first choice carries only a content fragment. -/
def contentChunk (v : String) : Chunk := ⟨[⟨some ⟨none, some v⟩, none⟩]⟩

/-- A chunk whose first choice carries only the finish signal. -/
def finishChunk : Chunk := ⟨[⟨some ⟨none, none⟩, some "stop"⟩]⟩

/-- Erases every reasoning fragment of a chunk, leaving content fragments and
finish signals untouched. -/
def stripReasoning (ch : Chunk) : Chunk :=
  ⟨ch.choices.map (fun c => ⟨c.delta.map (fun d => ⟨none, d.content⟩), c.finish_reason⟩)⟩

/-- Holds of an engine attempt that raises or yields a stream with no finish
signal (the two failure modes of claim C6). -/
def attemptFails : AttemptOutcome → Prop
  | .raiseErr _ => True
  | .stream cs => process_response cs = none

/-- An engine whose every attempt raises a transport error. -/
def allRaise : Nat → AttemptOutcome := fun _ => .raiseErr "Connection error"

/-- An engine whose every attempt streams a completed reply reading 看涨. -/
def okStream : Nat → AttemptOutcome :=
  fun _ => .stream [contentChunk "看涨", finishChunk]

/-- The assembled result ignores reasoning fragments entirely: stripping them
from the stream changes nothing, whatever the two buffers hold. -/
theorem processLoop_strip_reasoning (chunks : List Chunk) :
    ∀ content r1 r2, processLoop (chunks.map stripReasoning) content r1 =
      processLoop chunks content r2 := by
  induction chunks with
  | nil => intro content r1 r2; rfl
  | cons ch rest ih =>
    intro content r1 r2
    obtain ⟨choices⟩ := ch
    cases choices with
    | nil => simpa [stripReasoning, processLoop] using ih content r1 r2
    | cons fc cs =>
      obtain ⟨delta, fr⟩ := fc
      cases delta with
      | none => simpa [stripReasoning, processLoop] using ih content r1 r2
      | some d =>
        by_cases hfr : fr = some "stop"
        · simp [stripReasoning, processLoop, hfr]
        · cases hc : d.content with
          | none => simpa [stripReasoning, processLoop, hfr, hc] using ih _ _ _
          | some c => simpa [stripReasoning, processLoop, hfr, hc] using ih _ _ _

/-- When every attempt fails, the engine loop consumes all remaining attempts
and ends with the fixed exhaustion message. -/
theorem askLoop_all_attempts_fail (attempts : Nat → AttemptOutcome)
    (h : ∀ i, attemptFails (attempts i)) :
    ∀ rem i, askLoop attempts i rem = ⟨exhaustedMsg, rem⟩ := by
  intro rem
  induction rem with
  | zero => intro i; rfl
  | succ r ih =>
    intro i
    have hi := h i
    cases ha : attempts i with
    | raiseErr m => simp [askLoop, ha, ih]
    | stream cs =>
      rw [ha] at hi
      simp only [attemptFails] at hi
      simp [askLoop, ha, hi, ih]

/-- Lookup immediately sees a freshly inserted binding. -/
theorem alistLookup_cons_self {β : Type} (k : String) (v : β)
    (rest : List (String × β)) : alistLookup ((k, v) :: rest) k = some v := by
  simp [alistLookup]

/-! ## The claims -/

/-- C3: for every wrapped operation that raises an exception on every call,
the retry wrapper configured with `max_retries = 3` invokes the operation
exactly 3 times and then returns the failure sentinel `None` to the caller
without propagating any exception (the wrapper is a total function: every
branch returns). -/
theorem retry_always_failing_invokes_three_times {α : Type}
    (op : Nat → OpResult α) (h : ∀ i, ∃ m, op i = OpResult.exn m) :
    (retry op 3).result = none ∧ (retry op 3).calls = 3 := by
  obtain ⟨m0, h0⟩ := h 0
  obtain ⟨m1, h1⟩ := h 1
  obtain ⟨m2, h2⟩ := h 2
  simp [retry, retryAux, h0, h1, h2]

/-- Witness for C3: the always-raising operation. -/
theorem retry_always_failing_invokes_three_times_witness :
    (retry (fun _ => (OpResult.exn "boom" : OpResult Unit)) 3).result = none ∧
    (retry (fun _ => (OpResult.exn "boom" : OpResult Unit)) 3).calls = 3 :=
  retry_always_failing_invokes_three_times _ (fun _ => ⟨"boom", rfl⟩)

/-- C7: for every wrapped operation that raises on its first call and
succeeds on its second, the retry wrapper with `max_retries = 3` invokes the
operation exactly twice, sleeps exactly once (between the two attempts, never
after the final one), and returns the second attempt's result. -/
theorem retry_fail_once_then_succeed {α : Type} (op : Nat → OpResult α)
    (a : α) (m : String) (h0 : op 0 = OpResult.exn m) (h1 : op 1 = OpResult.ok a) :
    retry op 3 = ⟨some a, 2, 1⟩ := by
  simp [retry, retryAux, h0, h1]

/-- Witness for C7: raises on attempt 0, yields 42 on attempt 1. -/
theorem retry_fail_once_then_succeed_witness :
    retry (fun i => if i = 0 then (OpResult.exn "boom" : OpResult Int)
      else OpResult.ok 42) 3 = ⟨some 42, 2, 1⟩ :=
  retry_fail_once_then_succeed _ 42 "boom" rfl rfl

/-- C4 counterexample: at age exactly equal to the TTL (Δ = 24 h = 86400 s,
so Δ ≥ TTL), the read returns the stored payload and leaves the entry in
place — the claim demands a MISS with removal at every Δ ≥ TTL. -/
theorem load_cache_serves_entry_at_exact_ttl :
    24 * 3600 ≤ 86400 - 0 ∧
    load_cache [(get_cache_path "300750" "fund_flow", ⟨0, Payload.good sampleDF⟩)]
      "300750" "fund_flow" 24 86400 =
      (some sampleDF,
        [(get_cache_path "300750" "fund_flow", ⟨0, Payload.good sampleDF⟩)]) := by
  constructor
  · decide
  · rfl

/-- C4 amended: for every cache entry stored under a key whose payload
deserializes, a read at age Δ ≤ TTL returns the stored payload unchanged,
and a read at age Δ > TTL returns MISS (`None`) and removes the entry from
the store (the boundary case Δ = TTL is served, because the code expires on
strict inequality). -/
theorem load_cache_ttl_boundary (fs : CacheFS) (symbol data_type : String)
    (expiry_hours now : Nat) (e : CEntry) (df : DF)
    (hfs : alistLookup fs (get_cache_path symbol data_type) = some e)
    (hp : e.payload = Payload.good df) :
    (now - e.mtime ≤ expiry_hours * 3600 →
      load_cache fs symbol data_type expiry_hours now = (some df, fs)) ∧
    (expiry_hours * 3600 < now - e.mtime →
      load_cache fs symbol data_type expiry_hours now =
        (none, alistRemove fs (get_cache_path symbol data_type))) := by
  constructor
  · intro hage
    simp [load_cache, hfs, hp, Nat.not_lt.mpr hage]
  · intro hage
    simp [load_cache, hfs, hage]

/-- Witness for C4: a fresh good entry is served, a stale one is purged. -/
theorem load_cache_ttl_boundary_witness :
    load_cache [(get_cache_path "300750" "fund_flow", ⟨0, Payload.good sampleDF⟩)]
      "300750" "fund_flow" 24 100 =
      (some sampleDF,
        [(get_cache_path "300750" "fund_flow", ⟨0, Payload.good sampleDF⟩)]) ∧
    load_cache [(get_cache_path "300750" "fund_flow", ⟨0, Payload.good sampleDF⟩)]
      "300750" "fund_flow" 24 90000 =
      (none,
        alistRemove [(get_cache_path "300750" "fund_flow", ⟨0, Payload.good sampleDF⟩)]
          (get_cache_path "300750" "fund_flow")) :=
  ⟨(load_cache_ttl_boundary
      [(get_cache_path "300750" "fund_flow", ⟨0, Payload.good sampleDF⟩)]
      "300750" "fund_flow" 24 100 ⟨0, Payload.good sampleDF⟩ sampleDF rfl rfl).1
      (by decide),
   (load_cache_ttl_boundary
      [(get_cache_path "300750" "fund_flow", ⟨0, Payload.good sampleDF⟩)]
      "300750" "fund_flow" 24 90000 ⟨0, Payload.good sampleDF⟩ sampleDF rfl rfl).2
      (by decide)⟩

/-- C8: for every cache entry whose stored payload cannot be deserialized,
a cache read returns MISS (`None`) and never raises an exception to the
caller — whether the entry is fresh (the `pickle.load` failure is caught) or
stale (it is purged before deserialization is attempted); `load_cache` is a
total function, so no branch propagates an exception. -/
theorem load_cache_corrupt_entry_is_miss (fs : CacheFS)
    (symbol data_type : String) (expiry_hours now : Nat) (e : CEntry)
    (hfs : alistLookup fs (get_cache_path symbol data_type) = some e)
    (hp : e.payload = Payload.corrupt) :
    (load_cache fs symbol data_type expiry_hours now).1 = none := by
  by_cases hage : expiry_hours * 3600 < now - e.mtime
  · simp [load_cache, hfs, hage]
  · simp [load_cache, hfs, hp, hage]

/-- Witness for C8: a fresh corrupted entry reads as a miss. -/
theorem load_cache_corrupt_entry_is_miss_witness :
    (load_cache [(get_cache_path "300750" "fund_flow", ⟨0, Payload.corrupt⟩)]
      "300750" "fund_flow" 24 100).1 = none :=
  load_cache_corrupt_entry_is_miss _ "300750" "fund_flow" 24 100 _ rfl rfl

/-- C5: the stream assembler resolves `[content "a", content "b", finish]`
to `"ab"` and resolves `[content "a"]` (no finish chunk) to INCOMPLETE
(`none`); a chunk with no choices, or whose first choice has an absent delta,
is a no-op of the loop; and reasoning fragments are never part of the
returned result (stripping all of them changes nothing). -/
theorem process_response_completion_spec :
    process_response [contentChunk "a", contentChunk "b", finishChunk] = some "ab" ∧
    process_response [contentChunk "a"] = none ∧
    (∀ rest content reasoning,
      processLoop (Chunk.mk [] :: rest) content reasoning =
        processLoop rest content reasoning) ∧
    (∀ rest content reasoning fr,
      processLoop (Chunk.mk [Choice.mk none fr] :: rest) content reasoning =
        processLoop rest content reasoning) ∧
    (∀ chunks, process_response (chunks.map stripReasoning) =
      process_response chunks) := by
  refine ⟨rfl, rfl, ?_, ?_, ?_⟩
  · intro rest content reasoning; rfl
  · intro rest content reasoning fr; rfl
  · intro chunks; exact processLoop_strip_reasoning chunks "" "" ""

/-- C10: a content fragment riding on the very chunk that carries the finish
signal is excluded from the assembled result: whatever delta the finishing
chunk carries and whatever follows it, the loop returns the buffer as it was
before that chunk, so the result is the concatenation of content fragments
from strictly earlier chunks only. -/
theorem finish_chunk_content_excluded :
    (∀ (d : Delta) (tail_ : List Choice) (rest : List Chunk)
      (content reasoning : String),
      processLoop (Chunk.mk (Choice.mk (some d) (some "stop") :: tail_) :: rest)
        content reasoning = some content) ∧
    process_response
      [contentChunk "a",
       Chunk.mk [Choice.mk (some ⟨none, some "b"⟩) (some "stop")]] = some "a" := by
  constructor
  · intro d tail_ rest content reasoning
    simp [processLoop]
  · rfl

/-- C6 counterexample: with a nonempty dataset and an engine whose every
attempt raises a transport error, the engine call makes its 5 attempts and
the phase hunter's record is the plain error string `请求未正常结束,请稍后再试。` —
which has no fields at all — not the role's fallback record, contrary to the
claim's "the role then produces its fallback record". -/
theorem role_returns_error_string_not_fallback :
    (askDeepSeek (some sampleDF) allRaise 5).calls = 5 ∧
    phaseHunterAnalyze ⟨some sampleDF, none, none, none, none, none, allRaise⟩ =
      JVal.s exhaustedMsg ∧
    fieldNames
      (phaseHunterAnalyze ⟨some sampleDF, none, none, none, none, none, allRaise⟩) =
      none := by
  refine ⟨rfl, rfl, rfl⟩

/-- C6 amended: when each engine attempt either raises a transport error or
yields a stream that ends without a finish signal, `askDeepSeek` retries the
whole call (new request, new stream) exactly `max_retries` times and never
propagates an exception: it returns the fixed error string
`请求未正常结束,请稍后再试。`.  The role then returns that string verbatim as its
record; its fallback record (built only when `askDeepSeek` itself raises,
which cannot happen) is not produced. -/
theorem askDeepSeek_exhausts_attempts_without_raising
    (attempts : Nat → AttemptOutcome) (h : ∀ i, attemptFails (attempts i)) :
    (∀ (df : DF) (max_retries : Nat), df.isEmpty = false →
      askDeepSeek (some df) attempts max_retries = ⟨exhaustedMsg, max_retries⟩) ∧
    (∀ (x : Int) (xs : List Int) ff si bm ind intr,
      phaseHunterAnalyze ⟨some ⟨x :: xs⟩, ff, si, bm, ind, intr, attempts⟩ =
        JVal.s exhaustedMsg) := by
  have hloop := askLoop_all_attempts_fail attempts h
  constructor
  · intro df max_retries hdf
    simp [askDeepSeek, hdf, hloop]
  · intro x xs ff si bm ind intr
    simp [phaseHunterAnalyze, askDeepSeek, DF.isEmpty, hloop]

/-- Witness for C6: the always-raising engine against a nonempty dataset. -/
theorem askDeepSeek_exhausts_attempts_without_raising_witness :
    askDeepSeek (some sampleDF) allRaise 5 = ⟨exhaustedMsg, 5⟩ ∧
    phaseHunterAnalyze ⟨some ⟨[7]⟩, none, none, none, none, none, allRaise⟩ =
      JVal.s exhaustedMsg :=
  ⟨(askDeepSeek_exhausts_attempts_without_raising allRaise
      (fun _ => trivial)).1 sampleDF 5 rfl,
   (askDeepSeek_exhausts_attempts_without_raising allRaise
      (fun _ => trivial)).2 7 [] none none none none none⟩

/-- C2 counterexample: a successful phase-hunter run (data present, engine
completes with content 看涨) returns the engine reply verbatim — a plain
string with no field set at all — while the fallback run returns a dict with
the role's nine fixed fields; success and fallback therefore do not share one
fixed field set. -/
theorem success_record_shape_differs_from_fallback :
    phaseHunterAnalyze ⟨some sampleDF, none, none, none, none, none, okStream⟩ =
      JVal.s "看涨" ∧
    fieldNames
      (phaseHunterAnalyze ⟨some sampleDF, none, none, none, none, none, okStream⟩) =
      none ∧
    fieldNames (phaseHunterAnalyze ⟨none, none, none, none, none, none, okStream⟩) =
      some ["角色", "信号", "阶段评分", "关键结构", "大盘影响", "止损位",
        "置信度", "理由", "_debug_reasoning"] := by
  refine ⟨rfl, rfl, rfl⟩

/-- C2 amended: every fallback record a role produces has one fixed field
set for that role, whichever stage failed — distinguished by the default
confidence 50 and an explicit failure-reason string — while a role that
succeeds returns the engine's textual reply verbatim: a plain string, not a
record with that field set. -/
theorem fallback_records_share_fixed_schema :
    (∀ m ty m2 ty2,
      fieldNames (phaseHunterAIFallback m ty) =
        fieldNames (phaseHunterErrFallback m2 ty2) ∧
      fieldNames (phaseHunterErrFallback m ty) =
        fieldNames (phaseHunterRunnerFallback m2 ty2) ∧
      fieldNames (volumeDetectiveAIFallback m ty) =
        fieldNames (volumeDetectiveErrFallback m2 ty2)) ∧
    (∀ m ty,
      getField (phaseHunterAIFallback m ty) "置信度" = some (JVal.n 50) ∧
      getField (phaseHunterAIFallback m ty) "理由" =
        some (JVal.s ("AI分析调用失败: " ++ m)) ∧
      getField (phaseHunterErrFallback m ty) "置信度" = some (JVal.n 50) ∧
      getField (phaseHunterErrFallback m ty) "理由" =
        some (JVal.s ("执行分析时发生错误: " ++ m)) ∧
      getField (volumeDetectiveAIFallback m ty) "置信度" = some (JVal.n 50) ∧
      getField (volumeDetectiveErrFallback m ty) "置信度" = some (JVal.n 50)) ∧
    (∀ (x : Int) (xs : List Int) ff si bm ind intr att,
      phaseHunterAnalyze ⟨some ⟨x :: xs⟩, ff, si, bm, ind, intr, att⟩ =
        JVal.s (askDeepSeek (some ⟨x :: xs⟩) att 5).result ∧
      volumeDetectiveAnalyze ⟨some ⟨x :: xs⟩, ff, si, bm, ind, intr, att⟩ =
        JVal.s (askDeepSeek (some ⟨x :: xs⟩) att 5).result) := by
  refine ⟨?_, ?_, ?_⟩
  · intro m ty m2 ty2; exact ⟨rfl, rfl, rfl⟩
  · intro m ty; exact ⟨rfl, rfl, rfl, rfl, rfl, rfl⟩
  · intro x xs ff si bm ind intr att; exact ⟨rfl, rfl⟩

/-- C1 counterexample: in a run where the phase hunter's runner raises and
the other four runners return records, the list handed to the chief
strategist has 4 entries — the failed role's record is omitted, not replaced
by a fallback, and the aggregator does not receive exactly 5 records. -/
theorem orchestrator_omits_raising_role :
    (run_wyckoff_multi_agent_analysis "300750"
      ⟨OpResult.exn "boom", OpResult.ok (JVal.s "量"), OpResult.ok (JVal.s "弹"),
        OpResult.ok (JVal.s "目"), OpResult.ok (JVal.s "强")⟩
      (fun _ => OpResult.ok (JVal.obj []))).reports =
      [JVal.s "量", JVal.s "弹", JVal.s "目", JVal.s "强"] ∧
    (run_wyckoff_multi_agent_analysis "300750"
      ⟨OpResult.exn "boom", OpResult.ok (JVal.s "量"), OpResult.ok (JVal.s "弹"),
        OpResult.ok (JVal.s "目"), OpResult.ok (JVal.s "强")⟩
      (fun _ => OpResult.ok (JVal.obj []))).reports.length = 4 := by
  refine ⟨rfl, rfl⟩

/-- C1 amended: the chief strategist is invoked with the records of exactly
those roles whose runner returned normally, in the fixed declared order
(phase hunter, volume detective, spring hunter, target engineer, strength
commander); a role whose runner raises an exception contributes nothing to
the list, so the list length equals the number of runners that returned
normally and reaches 5 precisely when no runner raised.  (Each runner
catches its own errors internally and returns a fallback record itself, so
a raise at the orchestrator boundary — which omits rather than replaces —
occurs only when a runner escapes its own handlers.) -/
theorem aggregator_receives_surviving_records_in_order (sc : String)
    (o : RunOutcomes) (aggregate : List JVal → OpResult JVal) :
    (run_wyckoff_multi_agent_analysis sc o aggregate).reports =
      [o.phase, o.volume, o.spring, o.target, o.strength].filterMap
        OpResult.toOption ∧
    (run_wyckoff_multi_agent_analysis sc o aggregate).reports.length =
      [o.phase, o.volume, o.spring, o.target, o.strength].countP
        (fun r => r.isOk) ∧
    (∀ p v s t st ag2,
      (run_wyckoff_multi_agent_analysis sc
        ⟨OpResult.ok p, OpResult.ok v, OpResult.ok s, OpResult.ok t,
          OpResult.ok st⟩ ag2).reports = [p, v, s, t, st]) := by
  obtain ⟨p, v, s, t, st⟩ := o
  refine ⟨?_, ?_, ?_⟩
  · cases p <;> cases v <;> cases s <;> cases t <;> cases st <;>
      simp [run_wyckoff_multi_agent_analysis, expert_reports, okToList,
        OpResult.toOption]
  · cases p <;> cases v <;> cases s <;> cases t <;> cases st <;>
      simp [run_wyckoff_multi_agent_analysis, expert_reports, okToList,
        OpResult.isOk, List.countP_cons]
  · intro p2 v2 s2 t2 st2 ag2; rfl

/-- C9: once `get_stock_data` has succeeded for a symbol, a subsequent call
with the same symbol returns the frame stored in the in-memory class cache —
equal to the first call's result — leaves the cache unchanged, and performs
zero external fetch invocations, whatever the external fetch would now do
and with no age or TTL check on the entry. -/
theorem get_stock_data_memoized_after_success (f1 f2 : OpResult DF)
    (c : List (String × DF)) (symbol : String) (df : DF)
    (h : (get_stock_data f1 c symbol).result = some df) :
    get_stock_data f2 (get_stock_data f1 c symbol).cache symbol =
      ⟨some df, (get_stock_data f1 c symbol).cache, 0⟩ := by
  have hbody : get_stock_data f1 c symbol = get_stock_data_body f1 c symbol := rfl
  rw [hbody] at h ⊢
  have hbody2 : ∀ (f : OpResult DF) (c2 : List (String × DF)),
      get_stock_data f c2 symbol = get_stock_data_body f c2 symbol :=
    fun _ _ => rfl
  rw [hbody2]
  cases hl : alistLookup c symbol with
  | some d =>
    have hd : d = df := by
      simpa [get_stock_data_body, hl] using h
    subst hd
    simp [get_stock_data_body, hl]
  | none =>
    cases f1 with
    | ok d =>
      have hd : d = df := by
        simpa [get_stock_data_body, hl] using h
      subst hd
      simp [get_stock_data_body, hl, alistLookup_cons_self]
    | exn m =>
      simp [get_stock_data_body, hl] at h

/-- Witness for C9: after a first successful fetch of 300750, a second call
succeeds from the in-memory cache even though the network is now down. -/
theorem get_stock_data_memoized_after_success_witness :
    get_stock_data (OpResult.exn "network down")
      (get_stock_data (OpResult.ok sampleDF) [] "300750").cache "300750" =
      ⟨some sampleDF, (get_stock_data (OpResult.ok sampleDF) [] "300750").cache,
        0⟩ :=
  get_stock_data_memoized_after_success (OpResult.ok sampleDF)
    (OpResult.exn "network down") [] "300750" sampleDF rfl

end WMA
